import Mathlib

/-!
Verification of `sessionticket.py` (ScrambleSuit session tickets, a variant of
RFC 5077 session tickets).

Byte strings (Python 2 `str`) are modelled as `List Nat` of byte values.
The AES-CBC and HMAC-SHA256 primitives come from an external library
(`Crypto.Cipher.AES`, `Crypto.Hash.HMAC`); they are modelled abstractly as a
`Crypto` bundle, with the properties the code relies on (length preservation,
decryption inverting encryption, 32-byte tags) taken as hypotheses.  Python
`assert` failures are modelled by the `assertionError` outcome of `PyResult`.
-/

namespace ScrambleSuit

/-- Byte strings (Python 2 `str`): lists of byte values. -/
abbrev Bytes := List Nat

/-- Outcome of a Python call: a returned value, or an `AssertionError` raised
by a failed `assert` statement. -/
inductive PyResult (α : Type) where
  | ok : α → PyResult α
  | assertionError : PyResult α
deriving DecidableEq

/-- NAME_LENGTH = 16: length of the ticket name. -/
def NAME_LENGTH : Nat := 16

/-- IV_LENGTH = 16: length of the IV used for AES-CBC. -/
def IV_LENGTH : Nat := 16

/-- IDENTIFIER = "ScrambleSuitTicket", as its 18 ASCII byte values. -/
def IDENTIFIER : Bytes :=
  [83, 99, 114, 97, 109, 98, 108, 101, 83, 117, 105, 116, 84, 105, 99, 107, 101, 116]

/-- Modelled from the spec: `const.SESSION_TICKET_LENGTH` lives in the `const`
module, which is not part of the sources; the spec fixes the total wire-ticket
length at 112 bytes. -/
def SESSION_TICKET_LENGTH : Nat := 112

/-- The abstract cryptographic primitives the module imports from the external
PyCrypto library: HMAC-SHA256 (key, message) and AES-CBC encryption and
decryption (key, IV, data). -/
structure Crypto where
  hmacSHA256 : Bytes → Bytes → Bytes
  aesCBCEnc : Bytes → Bytes → Bytes → Bytes
  aesCBCDec : Bytes → Bytes → Bytes → Bytes

/-- The `ProtocolState` object: its four instance attributes.  `issueDate` is
`Option Bytes` because the constructor stores `None` and the `issue` method
later overwrites the attribute with a decimal string. -/
structure ProtocolState where
  identifier : Bytes
  masterKey : Bytes
  issueDate : Option Bytes
  pad : Bytes
deriving DecidableEq

/-- Python `ProtocolState.__init__(self, masterKey, issueDate=int(time.time()))`.
The constructor body assigns `self.issueDate = None`, so the `issueDate`
argument (defaulted to the import-time clock, or the decrypted timestamp in
`decryptTicket`) is discarded. -/
def ProtocolState.init (masterKey : Bytes) (issueDate : Bytes) : ProtocolState :=
  { identifier := IDENTIFIER
    masterKey := masterKey
    issueDate := none
    pad := [0, 0, 0, 0] }

/-- Python `ProtocolState.__repr__`: `self.issueDate + self.identifier + self.masterKey
+ self.pad`.  When `issueDate` is still `None` the Python concatenation raises
a `TypeError`; this failure is modelled by returning `none`. -/
def ProtocolState.toRepr (s : ProtocolState) : Option Bytes :=
  match s.issueDate with
  | none => none
  | some d => some (d ++ s.identifier ++ s.masterKey ++ s.pad)

/-- Outcome of a Python call that can raise a `NameError`: either a returned
value, or the `NameError` raised when an undefined name is evaluated. -/
inductive PyOutcome (α : Type) where
  | ok : α → PyOutcome α
  | nameError : PyOutcome α
deriving DecidableEq

/-- Python `ProtocolState.isValid(self)`.  Its first statement is
`assert issueDate`.  The name `issueDate` is neither a local variable of this
method nor a module-level binding (the only `issueDate` in the module is a
local of `decryptTicket`), so evaluating the assert raises `NameError` on
every call, before the clock is read or the comparison
`(now - self.issueDate) > const.SESSION_TICKET_LIFETIME` is reached; that
comparison is dead code (and `self.issueDate` holds `None` or an ASCII string,
never an integer, so the subtraction would raise `TypeError` in any case).
The unreachable clock value and lifetime are kept as parameters. -/
def ProtocolState.isValid (s : ProtocolState) (now : Int) (lifetime : Int) :
    PyOutcome Bool :=
  PyOutcome.nameError

/-- Python `decryptTicket(ticket)`.  The module-level names it reads (`keyName`,
`globalHMACKey`, `globalAESKey`) are passed as parameters, as in the spec
signature `decrypt(wireTicket, expectedKeyName, symmKey, macKey)`.  The
leading `assert len(ticket) == const.SESSION_TICKET_LENGTH` raises on any
other length; Python slices `ticket[:-32]`, `ticket[-32:]`, `ticket[16:32]`
and `ticket[32:-32]` become the corresponding take and drop expressions. -/
def decryptTicket (C : Crypto) (keyName globalHMACKey globalAESKey : Bytes)
    (ticket : Bytes) : PyResult (Option ProtocolState) :=
  if ticket.length = SESSION_TICKET_LENGTH then
    if ticket.take 16 = keyName then
      if C.hmacSHA256 globalHMACKey (ticket.take (ticket.length - 32)) =
          ticket.drop (ticket.length - 32) then
        let plainTicket := C.aesCBCDec globalAESKey ((ticket.drop 16).take 16)
          ((ticket.drop 32).take (ticket.length - 64))
        if (plainTicket.drop 10).take 18 = IDENTIFIER then
          PyResult.ok (some (ProtocolState.init ((plainTicket.drop 28).take 16)
            (plainTicket.take 10)))
        else PyResult.ok none
      else PyResult.ok none
    else PyResult.ok none
  else PyResult.assertionError

/-- The `SessionTicket` object: its five instance attributes. -/
structure SessionTicket where
  keyName : Bytes
  IV : Bytes
  state : ProtocolState
  symmTicketKey : Bytes
  hmacTicketKey : Bytes
deriving DecidableEq

/-- Python `SessionTicket.__init__(self, masterKey, symmTicketKey, hmacTicketKey)`.
The random draws `mycrypto.weak_random(NAME_LENGTH)` and
`mycrypto.strong_random(IV_LENGTH)` are external collaborators, supplied here
as the inputs `keyNameRnd` and `ivRnd`; they are taken once, at construction.
`ProtocolState(masterKey)` is called with its defaulted (and discarded)
`issueDate` argument, modelled as `[]`. -/
def SessionTicket.init (masterKey symmTicketKey hmacTicketKey : Bytes)
    (keyNameRnd ivRnd : Bytes) : SessionTicket :=
  { keyName := keyNameRnd
    IV := ivRnd
    state := ProtocolState.init masterKey []
    symmTicketKey := symmTicketKey
    hmacTicketKey := hmacTicketKey }

/-- The decimal ASCII representation of a natural number, as produced by
Python `"%d" % t` for a non-negative integer (no padding, all digits,
most-significant first). -/
def decimalDigits (t : Nat) : Bytes :=
  if t < 10 then [t + 48]
  else decimalDigits (t / 10) ++ [t % 10 + 48]
termination_by t
decreasing_by exact Nat.div_lt_self (by omega) (by omega)

/-- Python `SessionTicket.issue(self)`.  The wall clock `time.time()` is the input
`now`.  The method first mutates `self.state.issueDate` (the mutated object is
the first component of the result), then serializes the state with `repr`,
asserts the serialization length is a multiple of the AES block size 16,
encrypts it under `symmTicketKey` with the stored IV, authenticates
`keyName + IV + cryptedState` under `hmacTicketKey`, and returns the pair of
the key name and the assembled wire ticket. -/
def SessionTicket.issue (C : Crypto) (st : SessionTicket) (now : Nat) :
    SessionTicket × PyResult (Bytes × Bytes) :=
  let stMut : SessionTicket :=
    { st with state := { st.state with issueDate := some (decimalDigits now) } }
  match stMut.state.toRepr with
  | none => (stMut, PyResult.assertionError)
  | some state =>
    if state.length % 16 = 0 then
      let cryptedState := C.aesCBCEnc st.symmTicketKey st.IV state
      let hmac := C.hmacSHA256 st.hmacTicketKey (st.keyName ++ st.IV ++ cryptedState)
      (stMut, PyResult.ok (st.keyName, st.keyName ++ st.IV ++ cryptedState ++ hmac))
    else (stMut, PyResult.assertionError)

/-- Issue a ticket and immediately redeem it with the matching key material:
the round trip of the spec. -/
def roundTrip (C : Crypto) (masterKey symmKey hmacKey keyNameRnd ivRnd : Bytes)
    (now : Nat) : PyResult (Option ProtocolState) :=
  let st := SessionTicket.init masterKey symmKey hmacKey keyNameRnd ivRnd
  match (st.issue C now).2 with
  | PyResult.ok (kn, wire) => decryptTicket C kn hmacKey symmKey wire
  | PyResult.assertionError => PyResult.assertionError

/-- A concrete instance of the crypto interface, used to instantiate the
abstract theorems on executable inputs: the tag is 32 copies of a checksum
byte, and encryption is the identity (which satisfies the CBC round-trip and
length laws). -/
def toyCrypto : Crypto where
  hmacSHA256 := fun k m => List.replicate 32 ((k.sum + m.sum) % 256)
  aesCBCEnc := fun _ _ m => m
  aesCBCDec := fun _ _ m => m

/-- Concrete 16-byte master key. -/
def mk0 : Bytes := List.replicate 16 7

/-- Concrete 16-byte symmetric ticket key. -/
def sk0 : Bytes := List.replicate 16 1

/-- Concrete 16-byte HMAC ticket key. -/
def hk0 : Bytes := List.replicate 16 2

/-- Concrete 16-byte key name. -/
def kn0 : Bytes := List.replicate 16 3

/-- Concrete 16-byte IV. -/
def iv0 : Bytes := List.replicate 16 4

/-- Concrete 48-byte plaintext record: ten ASCII digit-1 bytes, the
identifier, the master key and the padding. -/
def plain0 : Bytes := ((List.replicate 10 49 ++ IDENTIFIER) ++ mk0) ++ [0, 0, 0, 0]

/-- The first 80 bytes of a well-formed concrete ticket under `toyCrypto`. -/
def macInput0 : Bytes := (kn0 ++ iv0) ++ plain0

/-- A concrete 112-byte ticket that passes the MAC check under `toyCrypto`. -/
def ticket0 : Bytes := macInput0 ++ toyCrypto.hmacSHA256 hk0 macInput0

lemma decimalDigits_c0 :
    decimalDigits 1234567890 = [49, 50, 51, 52, 53, 54, 55, 56, 57, 48] := by
  rw [decimalDigits]; norm_num
  rw [decimalDigits]; norm_num
  rw [decimalDigits]; norm_num
  rw [decimalDigits]; norm_num
  rw [decimalDigits]; norm_num
  rw [decimalDigits]; norm_num
  rw [decimalDigits]; norm_num
  rw [decimalDigits]; norm_num
  rw [decimalDigits]; norm_num
  rw [decimalDigits]; norm_num

lemma decimalDigits_c1 :
    decimalDigits 1234567891 = [49, 50, 51, 52, 53, 54, 55, 56, 57, 49] := by
  rw [decimalDigits]; norm_num
  rw [decimalDigits]; norm_num
  rw [decimalDigits]; norm_num
  rw [decimalDigits]; norm_num
  rw [decimalDigits]; norm_num
  rw [decimalDigits]; norm_num
  rw [decimalDigits]; norm_num
  rw [decimalDigits]; norm_num
  rw [decimalDigits]; norm_num
  rw [decimalDigits]; norm_num

lemma length_IDENTIFIER : IDENTIFIER.length = 18 := rfl

/-- On a wrong-length input, `decryptTicket` raises an assertion failure,
whatever the key material. -/
lemma decrypt_badLength (C : Crypto) (kn hk ak ticket : Bytes)
    (hlen : ticket.length ≠ SESSION_TICKET_LENGTH) :
    decryptTicket C kn hk ak ticket = PyResult.assertionError := by
  unfold decryptTicket
  exact if_neg hlen

/-- On a 112-byte input that carries the expected key name but fails the MAC
check, `decryptTicket` returns `none`. -/
lemma decrypt_macFail (C : Crypto) (kn hk ak ticket : Bytes)
    (hlen : ticket.length = 112) (hkn : ticket.take 16 = kn)
    (hbad : C.hmacSHA256 hk (ticket.take 80) ≠ ticket.drop 80) :
    decryptTicket C kn hk ak ticket = PyResult.ok none := by
  have h32 : ticket.length - 32 = 80 := by omega
  unfold decryptTicket
  rw [h32, if_pos (show ticket.length = SESSION_TICKET_LENGTH from hlen),
    if_pos hkn, if_neg hbad]

/-- On a 112-byte input that carries the expected key name and passes the MAC
check, `decryptTicket` decrypts the middle 48 bytes and branches only on the
identifier field of the resulting plaintext. -/
lemma decrypt_spec (C : Crypto) (kn hk ak ticket : Bytes)
    (hlen : ticket.length = 112) (hkn : ticket.take 16 = kn)
    (hmacOk : C.hmacSHA256 hk (ticket.take 80) = ticket.drop 80) :
    decryptTicket C kn hk ak ticket =
      (if ((C.aesCBCDec ak ((ticket.drop 16).take 16)
            ((ticket.drop 32).take 48)).drop 10).take 18 = IDENTIFIER then
        PyResult.ok (some (ProtocolState.init
          (((C.aesCBCDec ak ((ticket.drop 16).take 16)
             ((ticket.drop 32).take 48)).drop 28).take 16)
          ((C.aesCBCDec ak ((ticket.drop 16).take 16)
            ((ticket.drop 32).take 48)).take 10)))
      else PyResult.ok none) := by
  have h32 : ticket.length - 32 = 80 := by omega
  have h64 : ticket.length - 64 = 48 := by omega
  unfold decryptTicket
  rw [h32, h64, if_pos (show ticket.length = SESSION_TICKET_LENGTH from hlen),
    if_pos hkn, if_pos hmacOk]


lemma take_assoc3 (a b c d : Bytes) (n : Nat) (h : a.length = n) :
    (((a ++ b) ++ c) ++ d).take n = a := by
  rw [List.append_assoc, List.append_assoc]
  exact List.take_left' h

lemma dropTake_assoc3 (a b c d : Bytes) (m n : Nat) (ha : a.length = m) (hb : b.length = n) :
    ((((a ++ b) ++ c) ++ d).drop m).take n = b := by
  rw [List.append_assoc, List.append_assoc, List.drop_left' ha]
  exact List.take_left' hb

lemma dropTake_pair (a b c d : Bytes) (m n : Nat) (hab : (a ++ b).length = m) (hc : c.length = n) :
    ((((a ++ b) ++ c) ++ d).drop m).take n = c := by
  rw [List.append_assoc (a ++ b), List.drop_left' hab]
  exact List.take_left' hc

/-- The first component of `issue`: the mutated `SessionTicket` object, whose
`state.issueDate` now holds the formatted timestamp. -/
lemma issue_fst (C : Crypto) (st : SessionTicket) (now : Nat) :
    (st.issue C now).1 =
      { st with state := { st.state with issueDate := some (decimalDigits now) } } := by
  unfold SessionTicket.issue
  simp only [ProtocolState.toRepr]
  split <;> rfl

/-- The value returned by `issue` on a freshly constructed `SessionTicket`,
when the serialized state length is a multiple of the block size. -/
lemma issue_init_ok (C : Crypto) (mk sk hk kn iv : Bytes) (t : Nat)
    (h16 : (decimalDigits t ++ IDENTIFIER ++ mk ++ [0, 0, 0, 0]).length % 16 = 0) :
    ((SessionTicket.init mk sk hk kn iv).issue C t).2 =
      PyResult.ok (kn,
        kn ++ iv ++ C.aesCBCEnc sk iv (decimalDigits t ++ IDENTIFIER ++ mk ++ [0, 0, 0, 0]) ++
        C.hmacSHA256 hk
          (kn ++ iv ++ C.aesCBCEnc sk iv (decimalDigits t ++ IDENTIFIER ++ mk ++ [0, 0, 0, 0]))) := by
  unfold SessionTicket.issue SessionTicket.init ProtocolState.init ProtocolState.toRepr
  simp only []
  rw [if_pos h16]

/-- Issue-then-decrypt with matching keys: the result is a `ProtocolState`
carrying the original master key, the identifier constant, and an unset
(`none`) issue date. -/
lemma roundTrip_eq (C : Crypto) (mk sk hk kn iv : Bytes) (t : Nat)
    (hTagLen : forall k m, (C.hmacSHA256 k m).length = 32)
    (hEncLen : forall k i m, (C.aesCBCEnc k i m).length = m.length)
    (hInv : forall k i m, C.aesCBCDec k i (C.aesCBCEnc k i m) = m)
    (hmk : mk.length = 16) (hkn : kn.length = 16) (hiv : iv.length = 16)
    (hd : (decimalDigits t).length = 10) :
    roundTrip C mk sk hk kn iv t =
      PyResult.ok (some { identifier := IDENTIFIER
                          masterKey := mk
                          issueDate := none
                          pad := [0, 0, 0, 0] }) := by
  have hplain : (decimalDigits t ++ IDENTIFIER ++ mk ++ [0, 0, 0, 0]).length = 48 := by
    simp only [List.length_append, hd, hmk, length_IDENTIFIER]
    rfl
  have h16 : (decimalDigits t ++ IDENTIFIER ++ mk ++ [0, 0, 0, 0]).length % 16 = 0 := by
    rw [hplain]
  have hct : (C.aesCBCEnc sk iv (decimalDigits t ++ IDENTIFIER ++ mk ++ [0, 0, 0, 0])).length = 48 := by
    rw [hEncLen]; exact hplain
  set d : Bytes := decimalDigits t with hdd
  set ct : Bytes := C.aesCBCEnc sk iv (d ++ IDENTIFIER ++ mk ++ [0, 0, 0, 0]) with hctd
  set tag : Bytes := C.hmacSHA256 hk (kn ++ iv ++ ct) with htagd
  have hw80 : ((kn ++ iv) ++ ct).length = 80 := by
    simp only [List.length_append, hkn, hiv, hct]
  have hwire : (kn ++ iv ++ ct ++ tag).length = 112 := by
    simp only [List.length_append, hkn, hiv, hct, hTagLen]
  have htake16 : (kn ++ iv ++ ct ++ tag).take 16 = kn := take_assoc3 kn iv ct tag 16 hkn
  have htake80 : (kn ++ iv ++ ct ++ tag).take 80 = (kn ++ iv) ++ ct := List.take_left' hw80
  have hdrop80 : (kn ++ iv ++ ct ++ tag).drop 80 = tag := List.drop_left' hw80
  have hivS : ((kn ++ iv ++ ct ++ tag).drop 16).take 16 = iv :=
    dropTake_assoc3 kn iv ct tag 16 16 hkn hiv
  have hctS : ((kn ++ iv ++ ct ++ tag).drop 32).take 48 = ct := by
    refine dropTake_pair kn iv ct tag 32 48 ?_ hct
    simp only [List.length_append, hkn, hiv]
  have hmacOk : C.hmacSHA256 hk ((kn ++ iv ++ ct ++ tag).take 80) =
      (kn ++ iv ++ ct ++ tag).drop 80 := by rw [htake80, hdrop80]
  have hid : (((d ++ IDENTIFIER ++ mk ++ [0, 0, 0, 0]).drop 10).take 18) = IDENTIFIER :=
    dropTake_assoc3 d IDENTIFIER mk [0, 0, 0, 0] 10 18 hd length_IDENTIFIER
  have hmkS : (((d ++ IDENTIFIER ++ mk ++ [0, 0, 0, 0]).drop 28).take 16) = mk := by
    refine dropTake_pair d IDENTIFIER mk [0, 0, 0, 0] 28 16 ?_ hmk
    simp only [List.length_append, hd, length_IDENTIFIER]
  have hdS : (d ++ IDENTIFIER ++ mk ++ [0, 0, 0, 0]).take 10 = d :=
    take_assoc3 d IDENTIFIER mk [0, 0, 0, 0] 10 hd
  unfold roundTrip
  simp only [issue_init_ok C mk sk hk kn iv t h16]
  rw [decrypt_spec C kn hk sk (kn ++ iv ++ ct ++ tag) hwire htake16 hmacOk]
  rw [hivS, hctS, hctd, hInv, if_pos hid, hmkS, hdS]
  rfl


/-- A concrete 112-byte input whose first 16 bytes are `kn0` but whose final
32 bytes are not the HMAC of its first 80 bytes under `toyCrypto`. -/
def badTicket0 : Bytes := macInput0 ++ List.replicate 32 255

/-- A concrete `ProtocolState` whose `issueDate` attribute was overwritten
with ten ASCII digits, the way `issue` leaves it. -/
def state0 : ProtocolState :=
  { ProtocolState.init mk0 [] with issueDate := some (List.replicate 10 49) }

/-- C1 (amended): issuing a ticket over a 16-byte `masterKey` with 16-byte
key name and IV and then decrypting the wire ticket with the matching key
name, HMAC key and symmetric key returns a `ProtocolState` whose `masterKey`
equals the original; its `issueDate`, however, is `None`, because the
`ProtocolState` constructor discards the decrypted timestamp. -/
theorem C1_roundTrip_masterKey (C : Crypto) (mk sk hk kn iv : Bytes) (t : Nat)
    (hTagLen : forall k m, (C.hmacSHA256 k m).length = 32)
    (hEncLen : forall k i m, (C.aesCBCEnc k i m).length = m.length)
    (hInv : forall k i m, C.aesCBCDec k i (C.aesCBCEnc k i m) = m)
    (hmk : mk.length = 16) (hkn : kn.length = 16) (hiv : iv.length = 16)
    (hd : (decimalDigits t).length = 10) :
    roundTrip C mk sk hk kn iv t =
      PyResult.ok (some { identifier := IDENTIFIER
                          masterKey := mk
                          issueDate := none
                          pad := [0, 0, 0, 0] }) :=
  roundTrip_eq C mk sk hk kn iv t hTagLen hEncLen hInv hmk hkn hiv hd

/-- Witness for C1 at concrete key material and the ten-digit timestamp
1234567890. -/
theorem C1_roundTrip_masterKey_witness :
    roundTrip toyCrypto mk0 sk0 hk0 kn0 iv0 1234567890 =
      PyResult.ok (some { identifier := IDENTIFIER
                          masterKey := mk0
                          issueDate := none
                          pad := [0, 0, 0, 0] }) :=
  C1_roundTrip_masterKey toyCrypto mk0 sk0 hk0 kn0 iv0 1234567890
    (fun k m => by simp [toyCrypto]) (fun _ _ _ => rfl) (fun _ _ _ => rfl)
    (by decide) (by decide) (by decide) (by rw [decimalDigits_c0]; rfl)

/-- Counterexample to C1 as stated: the round trip at timestamp 1234567890
does not return a state whose `issueDate` equals the recorded 10-digit
timestamp (it returns `issueDate = none`). -/
theorem C1_counterexample :
    ¬ (∃ ps : ProtocolState,
        roundTrip toyCrypto mk0 sk0 hk0 kn0 iv0 1234567890 = PyResult.ok (some ps) ∧
        ps.issueDate = some (decimalDigits 1234567890)) := by
  intro h
  obtain ⟨ps, hps, hdate⟩ := h
  have heq := (roundTrip_eq toyCrypto mk0 sk0 hk0 kn0 iv0 1234567890
    (fun k m => by simp [toyCrypto]) (fun _ _ _ => rfl) (fun _ _ _ => rfl)
    (by decide) (by decide) (by decide) (by rw [decimalDigits_c0]; rfl)).symm.trans hps
  injection heq with h1
  injection h1 with h2
  rw [← h2] at hdate
  simp at hdate

/-- C2: on a 112-byte input carrying the expected key name, if the final 32
bytes differ from the HMAC-SHA256 of the first 80 bytes under the HMAC key,
`decryptTicket` returns `None`; moreover the result is the same for any AES
decryption function and any AES key, so the decryption output is never
used. -/
theorem C2_macFail_rejects (C D : Crypto) (kn hk ak ak2 ticket : Bytes)
    (hsame : D.hmacSHA256 = C.hmacSHA256)
    (hlen : ticket.length = 112) (hkn : ticket.take 16 = kn)
    (hbad : C.hmacSHA256 hk (ticket.take 80) ≠ ticket.drop 80) :
    decryptTicket C kn hk ak ticket = PyResult.ok none ∧
    decryptTicket D kn hk ak2 ticket = PyResult.ok none := by
  refine ⟨decrypt_macFail C kn hk ak ticket hlen hkn hbad,
    decrypt_macFail D kn hk ak2 ticket hlen hkn ?_⟩
  rw [hsame]
  exact hbad

/-- Witness for C2 on a concrete tampered ticket, under two different AES
keys. -/
theorem C2_macFail_rejects_witness :
    decryptTicket toyCrypto kn0 hk0 sk0 badTicket0 = PyResult.ok none ∧
    decryptTicket toyCrypto kn0 hk0 mk0 badTicket0 = PyResult.ok none :=
  C2_macFail_rejects toyCrypto toyCrypto kn0 hk0 sk0 mk0 badTicket0 rfl
    (by decide) (by decide) (by decide)

/-- C3: `isValid` never returns a Boolean at all — every call raises
`NameError` from the undefined-name assert that opens the method.  Evaluated
at a concrete input where the claim requires `True` (a state whose
`issueDate` was set to ten ASCII digits as `issue` does, with an age within
the lifetime): the call errors instead of answering. -/
theorem C3_isValid_raises :
    state0.isValid 1234567890 100 = PyOutcome.nameError ∧
    ∀ b : Bool, state0.isValid 1234567890 100 ≠ PyOutcome.ok b := by
  refine ⟨rfl, fun b h => ?_⟩
  simp [ProtocolState.isValid] at h

/-- C4: on any input whose length differs from 112, `decryptTicket` raises an
assertion failure (the leading `assert` fails), rather than returning the
`None` rejection the claim and the function docstring promise. -/
theorem C4_badLength_asserts (C : Crypto) (kn hk ak ticket : Bytes)
    (hlen : ticket.length ≠ 112) :
    decryptTicket C kn hk ak ticket = PyResult.assertionError :=
  decrypt_badLength C kn hk ak ticket hlen

/-- Witness for C4 at a concrete 111-byte input. -/
theorem C4_badLength_asserts_witness :
    decryptTicket toyCrypto kn0 hk0 sk0 (List.replicate 111 0) = PyResult.assertionError :=
  C4_badLength_asserts toyCrypto kn0 hk0 sk0 (List.replicate 111 0) (by decide)


/-- C6: `issue` on a freshly constructed ticket with 16-byte master key, key
name and IV, at a 10-digit timestamp, returns its key name together with a
112-byte wire ticket laid out as keyName(16), IV(16), ciphertext(48), tag(32):
the first 16 bytes are the returned key name, the ciphertext is the AES-CBC
encryption of the 48-byte serialized state, and the final 32 bytes are the
HMAC-SHA256 of the first 80 bytes under `hmacTicketKey`. -/
theorem C6_issue_layout (C : Crypto) (mk sk hk kn iv : Bytes) (t : Nat)
    (hTagLen : forall k m, (C.hmacSHA256 k m).length = 32)
    (hEncLen : forall k i m, (C.aesCBCEnc k i m).length = m.length)
    (hmk : mk.length = 16) (hkn : kn.length = 16) (hiv : iv.length = 16)
    (hd : (decimalDigits t).length = 10) :
    ∃ w : Bytes,
      ((SessionTicket.init mk sk hk kn iv).issue C t).2 = PyResult.ok (kn, w) ∧
      w = kn ++ iv ++ C.aesCBCEnc sk iv (decimalDigits t ++ IDENTIFIER ++ mk ++ [0, 0, 0, 0]) ++
        C.hmacSHA256 hk
          (kn ++ iv ++ C.aesCBCEnc sk iv (decimalDigits t ++ IDENTIFIER ++ mk ++ [0, 0, 0, 0])) ∧
      w.length = 112 ∧ w.take 16 = kn ∧
      (C.aesCBCEnc sk iv (decimalDigits t ++ IDENTIFIER ++ mk ++ [0, 0, 0, 0])).length = 48 ∧
      w.drop 80 = C.hmacSHA256 hk (w.take 80) := by
  have hplain : (decimalDigits t ++ IDENTIFIER ++ mk ++ [0, 0, 0, 0]).length = 48 := by
    simp only [List.length_append, hd, hmk, length_IDENTIFIER]
    rfl
  have h16 : (decimalDigits t ++ IDENTIFIER ++ mk ++ [0, 0, 0, 0]).length % 16 = 0 := by
    rw [hplain]
  have hct : (C.aesCBCEnc sk iv (decimalDigits t ++ IDENTIFIER ++ mk ++ [0, 0, 0, 0])).length = 48 := by
    rw [hEncLen]; exact hplain
  set d : Bytes := decimalDigits t with hdd
  set ct : Bytes := C.aesCBCEnc sk iv (d ++ IDENTIFIER ++ mk ++ [0, 0, 0, 0]) with hctd
  set tag : Bytes := C.hmacSHA256 hk (kn ++ iv ++ ct) with htagd
  have hw80 : ((kn ++ iv) ++ ct).length = 80 := by
    simp only [List.length_append, hkn, hiv, hct]
  have hwire : (kn ++ iv ++ ct ++ tag).length = 112 := by
    simp only [List.length_append, hkn, hiv, hct, hTagLen]
  have htake16 : (kn ++ iv ++ ct ++ tag).take 16 = kn := take_assoc3 kn iv ct tag 16 hkn
  have htake80 : (kn ++ iv ++ ct ++ tag).take 80 = (kn ++ iv) ++ ct := List.take_left' hw80
  have hdrop80 : (kn ++ iv ++ ct ++ tag).drop 80 = tag := List.drop_left' hw80
  refine ⟨kn ++ iv ++ ct ++ tag, issue_init_ok C mk sk hk kn iv t h16, rfl,
    hwire, htake16, hct, ?_⟩
  rw [hdrop80, htake80]

/-- Witness for C6 at concrete key material and the ten-digit timestamp
1234567890. -/
theorem C6_issue_layout_witness :
    ∃ w : Bytes,
      ((SessionTicket.init mk0 sk0 hk0 kn0 iv0).issue toyCrypto 1234567890).2 =
        PyResult.ok (kn0, w) ∧
      w = kn0 ++ iv0 ++
        toyCrypto.aesCBCEnc sk0 iv0 (decimalDigits 1234567890 ++ IDENTIFIER ++ mk0 ++ [0, 0, 0, 0]) ++
        toyCrypto.hmacSHA256 hk0 (kn0 ++ iv0 ++
          toyCrypto.aesCBCEnc sk0 iv0 (decimalDigits 1234567890 ++ IDENTIFIER ++ mk0 ++ [0, 0, 0, 0])) ∧
      w.length = 112 ∧ w.take 16 = kn0 ∧
      (toyCrypto.aesCBCEnc sk0 iv0 (decimalDigits 1234567890 ++ IDENTIFIER ++ mk0 ++ [0, 0, 0, 0])).length = 48 ∧
      w.drop 80 = toyCrypto.hmacSHA256 hk0 (w.take 80) :=
  C6_issue_layout toyCrypto mk0 sk0 hk0 kn0 iv0 1234567890
    (fun k m => by simp [toyCrypto]) (fun _ _ _ => rfl)
    (by decide) (by decide) (by decide) (by rw [decimalDigits_c0]; rfl)

/-- C7: serializing a `ProtocolState` whose master key is 16 bytes and whose
issue date is a 10-digit ASCII decimal string yields exactly 48 bytes, in the
order issueDate(10), identifier(18), masterKey(16), pad(4), with the pad equal
to four zero bytes and the identifier equal to the constant. -/
theorem C7_repr_layout (mk d0 d : Bytes) (hmk : mk.length = 16)
    (hdlen : d.length = 10) (hdig : ∀ b ∈ d, 48 ≤ b ∧ b ≤ 57) :
    ({ ProtocolState.init mk d0 with issueDate := some d } : ProtocolState).toRepr =
      some (d ++ IDENTIFIER ++ mk ++ [0, 0, 0, 0]) ∧
    (d ++ IDENTIFIER ++ mk ++ [0, 0, 0, 0]).length = 48 := by
  refine ⟨rfl, ?_⟩
  simp only [List.length_append, hdlen, hmk, length_IDENTIFIER]
  rfl

/-- Witness for C7 at a concrete state. -/
theorem C7_repr_layout_witness :
    ({ ProtocolState.init mk0 [] with issueDate := some (List.replicate 10 49) } :
        ProtocolState).toRepr =
      some (List.replicate 10 49 ++ IDENTIFIER ++ mk0 ++ [0, 0, 0, 0]) ∧
    (List.replicate 10 49 ++ IDENTIFIER ++ mk0 ++ [0, 0, 0, 0]).length = 48 :=
  C7_repr_layout mk0 [] (List.replicate 10 49) (by decide) (by decide) (by decide)

/-- C8: on a 112-byte ticket that passes the key-name pre-filter and the MAC
check, `decryptTicket` returns `None` when bytes 10..28 of the decrypted
plaintext differ from the identifier constant, and otherwise returns a state
built verbatim from the plaintext slices, with no further validation of any
other field. -/
theorem C8_identifier_gate (C : Crypto) (kn hk ak ticket : Bytes)
    (hlen : ticket.length = 112) (hkn : ticket.take 16 = kn)
    (hmacOk : C.hmacSHA256 hk (ticket.take 80) = ticket.drop 80) :
    (((C.aesCBCDec ak ((ticket.drop 16).take 16) ((ticket.drop 32).take 48)).drop 10).take 18 ≠
        IDENTIFIER →
      decryptTicket C kn hk ak ticket = PyResult.ok none) ∧
    (((C.aesCBCDec ak ((ticket.drop 16).take 16) ((ticket.drop 32).take 48)).drop 10).take 18 =
        IDENTIFIER →
      decryptTicket C kn hk ak ticket =
        PyResult.ok (some (ProtocolState.init
          (((C.aesCBCDec ak ((ticket.drop 16).take 16) ((ticket.drop 32).take 48)).drop 28).take 16)
          ((C.aesCBCDec ak ((ticket.drop 16).take 16) ((ticket.drop 32).take 48)).take 10)))) := by
  have h := decrypt_spec C kn hk ak ticket hlen hkn hmacOk
  constructor
  · intro hne
    rw [h, if_neg hne]
  · intro heq
    rw [h, if_pos heq]

/-- Witness for C8 at a concrete well-formed ticket whose plaintext carries
the identifier constant. -/
theorem C8_identifier_gate_witness :
    (((toyCrypto.aesCBCDec sk0 ((ticket0.drop 16).take 16) ((ticket0.drop 32).take 48)).drop 10).take 18 ≠
        IDENTIFIER →
      decryptTicket toyCrypto kn0 hk0 sk0 ticket0 = PyResult.ok none) ∧
    (((toyCrypto.aesCBCDec sk0 ((ticket0.drop 16).take 16) ((ticket0.drop 32).take 48)).drop 10).take 18 =
        IDENTIFIER →
      decryptTicket toyCrypto kn0 hk0 sk0 ticket0 =
        PyResult.ok (some (ProtocolState.init
          (((toyCrypto.aesCBCDec sk0 ((ticket0.drop 16).take 16) ((ticket0.drop 32).take 48)).drop 28).take 16)
          ((toyCrypto.aesCBCDec sk0 ((ticket0.drop 16).take 16) ((ticket0.drop 32).take 48)).take 10)))) :=
  C8_identifier_gate toyCrypto kn0 hk0 sk0 ticket0 (by decide) (by decide) (by decide)


/-- Whenever `issue` returns a pair, its first component is the stored
`keyName`, and bytes 16..32 of the wire ticket are the stored `IV` — the same
attributes on every call, since both were drawn once at construction. -/
lemma issue_ok_shape (C : Crypto) (st : SessionTicket) (t : Nat) (kw : Bytes × Bytes)
    (h : (st.issue C t).2 = PyResult.ok kw) :
    kw.1 = st.keyName ∧
    (kw.2.drop st.keyName.length).take st.IV.length = st.IV := by
  unfold SessionTicket.issue at h
  simp only [ProtocolState.toRepr] at h
  by_cases hc : ((decimalDigits t ++ st.state.identifier ++ st.state.masterKey ++
      st.state.pad).length % 16 = 0)
  · rw [if_pos hc] at h
    simp only [] at h
    injection h with h2
    subst h2
    exact ⟨rfl, dropTake_assoc3 st.keyName st.IV _ _ _ _ rfl rfl⟩
  · rw [if_neg hc] at h
    simp at h

/-- C9 (amended): `issue` mutates its `SessionTicket`: after the call,
`state.issueDate` holds the formatted call time, all other fields unchanged.
The key name and IV are drawn once at construction, not per call, so whenever
two calls on the same ticket both return, they return the same key name and
embed the same stored IV at bytes 16..32 of both wire tickets. -/
theorem C9_issue_mutates_and_reuses_iv (C : Crypto) (st : SessionTicket)
    (t1 t2 : Nat) (kw1 kw2 : Bytes × Bytes)
    (h1 : (st.issue C t1).2 = PyResult.ok kw1)
    (h2 : (st.issue C t2).2 = PyResult.ok kw2) :
    (st.issue C t1).1 =
      { st with state := { st.state with issueDate := some (decimalDigits t1) } } ∧
    kw1.1 = st.keyName ∧ kw2.1 = st.keyName ∧
    (kw1.2.drop st.keyName.length).take st.IV.length = st.IV ∧
    (kw2.2.drop st.keyName.length).take st.IV.length = st.IV := by
  obtain ⟨ha1, hb1⟩ := issue_ok_shape C st t1 kw1 h1
  obtain ⟨ha2, hb2⟩ := issue_ok_shape C st t2 kw2 h2
  exact ⟨issue_fst C st t1, ha1, ha2, hb1, hb2⟩

/-- Witness for C9 on a concrete ticket issued at two different times. -/
theorem C9_issue_mutates_and_reuses_iv_witness :
    ((SessionTicket.init mk0 sk0 hk0 kn0 iv0).issue toyCrypto 1234567890).1 =
      { keyName := kn0
        IV := iv0
        state := { identifier := IDENTIFIER
                   masterKey := mk0
                   issueDate := some (decimalDigits 1234567890)
                   pad := [0, 0, 0, 0] }
        symmTicketKey := sk0
        hmacTicketKey := hk0 } ∧
    ((kn0 ++ iv0 ++
        toyCrypto.aesCBCEnc sk0 iv0 (decimalDigits 1234567890 ++ IDENTIFIER ++ mk0 ++ [0, 0, 0, 0]) ++
        toyCrypto.hmacSHA256 hk0 (kn0 ++ iv0 ++
          toyCrypto.aesCBCEnc sk0 iv0
            (decimalDigits 1234567890 ++ IDENTIFIER ++ mk0 ++ [0, 0, 0, 0]))).drop 16).take 16 =
      iv0 ∧
    ((kn0 ++ iv0 ++
        toyCrypto.aesCBCEnc sk0 iv0 (decimalDigits 1234567891 ++ IDENTIFIER ++ mk0 ++ [0, 0, 0, 0]) ++
        toyCrypto.hmacSHA256 hk0 (kn0 ++ iv0 ++
          toyCrypto.aesCBCEnc sk0 iv0
            (decimalDigits 1234567891 ++ IDENTIFIER ++ mk0 ++ [0, 0, 0, 0]))).drop 16).take 16 =
      iv0 := by
  have h := C9_issue_mutates_and_reuses_iv toyCrypto (SessionTicket.init mk0 sk0 hk0 kn0 iv0)
    1234567890 1234567891 _ _
    (issue_init_ok toyCrypto mk0 sk0 hk0 kn0 iv0 1234567890 (by rw [decimalDigits_c0]; rfl))
    (issue_init_ok toyCrypto mk0 sk0 hk0 kn0 iv0 1234567891 (by rw [decimalDigits_c1]; rfl))
  exact ⟨h.1, h.2.2.2.1, h.2.2.2.2⟩

/-- Counterexample to C9 as stated: `issue` does not leave the ticket object
unchanged (it overwrites `state.issueDate`), and two calls to `issue` on the
same ticket embed the same IV bytes in both wire tickets. -/
theorem C9_counterexample :
    ((SessionTicket.init mk0 sk0 hk0 kn0 iv0).issue toyCrypto 1234567890).1 ≠
      SessionTicket.init mk0 sk0 hk0 kn0 iv0 ∧
    (∃ w1 w2 : Bytes × Bytes,
      ((SessionTicket.init mk0 sk0 hk0 kn0 iv0).issue toyCrypto 1234567890).2 =
        PyResult.ok w1 ∧
      ((SessionTicket.init mk0 sk0 hk0 kn0 iv0).issue toyCrypto 1234567891).2 =
        PyResult.ok w2 ∧
      (w1.2.drop 16).take 16 = iv0 ∧ (w2.2.drop 16).take 16 = iv0) := by
  constructor
  · rw [issue_fst]
    intro h
    have hcmp := congrArg (fun x => x.state.issueDate) h
    simp [SessionTicket.init, ProtocolState.init] at hcmp
  · refine ⟨_, _,
      issue_init_ok toyCrypto mk0 sk0 hk0 kn0 iv0 1234567890 (by rw [decimalDigits_c0]; rfl),
      issue_init_ok toyCrypto mk0 sk0 hk0 kn0 iv0 1234567891 (by rw [decimalDigits_c1]; rfl),
      dropTake_assoc3 kn0 iv0 _ _ 16 16 (by decide) (by decide),
      dropTake_assoc3 kn0 iv0 _ _ 16 16 (by decide) (by decide)⟩

/-- C10: the `ProtocolState` constructor stores `None` in `issueDate`
regardless of the argument it receives, and consequently every state returned
by a successful `decryptTicket` has `issueDate = None`. -/
theorem C10_issueDate_discarded (C : Crypto) (kn hk ak ticket mk d : Bytes)
    (ps : ProtocolState)
    (h : decryptTicket C kn hk ak ticket = PyResult.ok (some ps)) :
    (ProtocolState.init mk d).issueDate = none ∧ ps.issueDate = none := by
  refine ⟨rfl, ?_⟩
  unfold decryptTicket at h
  simp only [] at h
  split_ifs at h
  all_goals first
  | (injection h with h1
     injection h1 with h2
     rw [← h2]
     rfl)
  | simp at h

/-- Witness for C10 at a concrete constructor call and a concrete successful
decryption. -/
theorem C10_issueDate_discarded_witness :
    (ProtocolState.init mk0 (List.replicate 10 49)).issueDate = none ∧
    ({ identifier := IDENTIFIER
       masterKey := mk0
       issueDate := none
       pad := [0, 0, 0, 0] } : ProtocolState).issueDate = none :=
  C10_issueDate_discarded toyCrypto kn0 hk0 sk0 ticket0 mk0 (List.replicate 10 49)
    { identifier := IDENTIFIER
      masterKey := mk0
      issueDate := none
      pad := [0, 0, 0, 0] }
    (by decide)

end ScrambleSuit
